import Mathlib

/-!
# Verification of the AirTap Android SDK client layer

A shallow embedding of the session / sub-resource coordination layer of the
AirTap Android JavaScript SDK (`sandbox.js`, `stream/manager.js`,
`record/manager.js`, `apps/manager.js`, `files/manager.js`), together with
theorems settling the specified behavioural claims.

Modelling conventions:
* JavaScript exceptions become `Except SdkError` results; a function that can
  both throw and mutate manager state returns the pair of its result and the
  post-call state.
* The HTTP transport and the remote shell are oracles passed in as explicit
  parameters (the success / failure of each remote call is a parameter).
* Side effects other than state mutation (shell commands issued, fixed waits,
  file-existence probes, file deletions/pulls) are recorded in an explicit
  action trace so that "no request was issued" is a provable statement.
* Byte contents are `List Nat` with every element `< 256`.
-/

/-- The closed error taxonomy of the SDK (`exceptions.js`): every controller
raises exactly one of these kinds, carrying a human-readable message. -/
inductive SdkError : Type
  | apiKeyError (msg : String)
  | connectionError (msg : String)
  | streamError (msg : String)
  | appError (msg : String)
  | recordingError (msg : String)
  | fileError (msg : String)
  | apiError (msg : String)
  deriving DecidableEq, Repr

namespace SdkError

/-- Does an `Except` result carry a `ConnectionError`? -/
def isConnectionError {α : Type} : Except SdkError α → Bool
  | .error (.connectionError _) => true
  | _ => false

/-- Does an `Except` result carry a `RecordingError`? -/
def isRecordingError {α : Type} : Except SdkError α → Bool
  | .error (.recordingError _) => true
  | _ => false

/-- Does an `Except` result carry a `StreamError`? -/
def isStreamError {α : Type} : Except SdkError α → Bool
  | .error (.streamError _) => true
  | _ => false

/-- Does an `Except` result carry an `AppError`? -/
def isAppError {α : Type} : Except SdkError α → Bool
  | .error (.appError _) => true
  | _ => false

/-- Does an `Except` result carry a `FileError`? -/
def isFileError {α : Type} : Except SdkError α → Bool
  | .error (.fileError _) => true
  | _ => false

end SdkError

/-! ## Base64 codec

`files/manager.js` ships file contents through the transport as base64 text
(`Buffer.prototype.toString('base64')` on push, `Buffer.from(s, 'base64')` on
pull).  The codec is embedded here over byte lists. -/

/-- The standard base64 alphabet used by Node's `Buffer` base64 codec. -/
def b64Alphabet : List Char :=
  "ABCDEFGHIJKLMNOPQRSTUVWXYZabcdefghijklmnopqrstuvwxyz0123456789+/".toList

/-- Character for a six-bit value (index into the base64 alphabet). -/
def valToChar (v : Nat) : Char := b64Alphabet.getD v 'A'

/-- Six-bit value of a base64 alphabet character. -/
def charToVal (c : Char) : Nat := b64Alphabet.indexOf c

/-- Base64 encoding of a byte list, with `=` padding, as produced by
`Buffer.prototype.toString('base64')`. -/
def b64Encode : List Nat → List Char
  | [] => []
  | [a] => [valToChar (a / 4), valToChar (a % 4 * 16), '=', '=']
  | [a, b] => [valToChar (a / 4), valToChar (a % 4 * 16 + b / 16),
               valToChar (b % 16 * 4), '=']
  | a :: b :: c :: rest =>
      valToChar (a / 4) :: valToChar (a % 4 * 16 + b / 16) ::
      valToChar (b % 16 * 4 + c / 64) :: valToChar (c % 64) :: b64Encode rest
/-- Base64 decoding of a character list, honouring terminal `=` padding, as
performed by `Buffer.from(s, 'base64')` on well-formed input. -/
def b64Decode : List Char → List Nat
  | c1 :: c2 :: c3 :: c4 :: rest =>
      if c3 = '=' then
        [charToVal c1 * 4 + charToVal c2 / 16]
      else if c4 = '=' then
        [charToVal c1 * 4 + charToVal c2 / 16,
         charToVal c2 % 16 * 16 + charToVal c3 / 4]
      else
        (charToVal c1 * 4 + charToVal c2 / 16) ::
        (charToVal c2 % 16 * 16 + charToVal c3 / 4) ::
        (charToVal c3 % 4 * 64 + charToVal c4) :: b64Decode rest
  | _ => []

theorem charToVal_valToChar_fin : ∀ v : Fin 64, charToVal (valToChar v.val) = v.val := by
  decide

theorem valToChar_ne_pad_fin : ∀ v : Fin 64, valToChar v.val ≠ '=' := by
  decide

theorem charToVal_valToChar {v : Nat} (h : v < 64) : charToVal (valToChar v) = v :=
  charToVal_valToChar_fin ⟨v, h⟩

theorem valToChar_ne_pad {v : Nat} (h : v < 64) : valToChar v ≠ '=' :=
  valToChar_ne_pad_fin ⟨v, h⟩

/-- Decoding inverts encoding on genuine byte lists. -/
theorem b64_roundtrip : ∀ bs : List Nat, (∀ b ∈ bs, b < 256) → b64Decode (b64Encode bs) = bs
  | [], _ => rfl
  | [a], h => by
    have ha : a < 256 := h a (by simp)
    have h1 : a / 4 < 64 := by omega
    have h2 : a % 4 * 16 < 64 := by omega
    simp [b64Encode, b64Decode, charToVal_valToChar h1, charToVal_valToChar h2]
    omega
  | [a, b], h => by
    have ha : a < 256 := h a (by simp)
    have hb : b < 256 := h b (by simp)
    have h1 : a / 4 < 64 := by omega
    have h2 : a % 4 * 16 + b / 16 < 64 := by omega
    have h3 : b % 16 * 4 < 64 := by omega
    simp [b64Encode, b64Decode, charToVal_valToChar h1, charToVal_valToChar h2,
          charToVal_valToChar h3, valToChar_ne_pad h3]
    omega
  | a :: b :: c :: d :: rest, h => by
    have ha : a < 256 := h a (by simp)
    have hb : b < 256 := h b (by simp)
    have hc : c < 256 := h c (by simp)
    have h1 : a / 4 < 64 := by omega
    have h2 : a % 4 * 16 + b / 16 < 64 := by omega
    have h3 : b % 16 * 4 + c / 64 < 64 := by omega
    have h4 : c % 64 < 64 := by omega
    have ih := b64_roundtrip (d :: rest) (by intro x hx; exact h x (by simp [hx]))
    simp [b64Encode, b64Decode, charToVal_valToChar h1, charToVal_valToChar h2,
          charToVal_valToChar h3, charToVal_valToChar h4, valToChar_ne_pad h3,
          valToChar_ne_pad h4, ih]
    omega
  | a :: b :: c :: [], h => by
    have ha : a < 256 := h a (by simp)
    have hb : b < 256 := h b (by simp)
    have hc : c < 256 := h c (by simp)
    have h1 : a / 4 < 64 := by omega
    have h2 : a % 4 * 16 + b / 16 < 64 := by omega
    have h3 : b % 16 * 4 + c / 64 < 64 := by omega
    have h4 : c % 64 < 64 := by omega
    simp [b64Encode, b64Decode, charToVal_valToChar h1, charToVal_valToChar h2,
          charToVal_valToChar h3, charToVal_valToChar h4, valToChar_ne_pad h3,
          valToChar_ne_pad h4]
    omega

/-! ## FileManager (`files/manager.js`)

The local filesystem and the remote file store are both modelled as partial
maps.  `pushFile` reads the local file, base64-encodes it, and submits it in a
single request (`POST /files/push` with the encoded content); the remote store
is assumed to store and return the submitted content.  `pullFile` requests the
stored content, base64-decodes it and writes the bytes locally. -/

/-- A filesystem: device-side paths (or local paths) to byte contents. -/
def ByteFs : Type := String → Option (List Nat)

/-- The remote content store reached through `/files/push` / `/files/pull`:
paths to the submitted base64 text. -/
def RemoteStore : Type := String → Option String

namespace FileManager

/-- `FileManager.pushFile(localPath, remotePath)`: fails with `FileError` when
the local source does not exist (`fs.existsSync` is false); otherwise reads the
file fully, encodes it to base64 and submits it in one request.  Returns the
call result together with the remote store updated by a transport that stores
the submitted content. -/
def pushFile (localFs : ByteFs) (store : RemoteStore) (localPath remotePath : String) :
    Except SdkError Bool × RemoteStore :=
  match localFs localPath with
  | none =>
      (.error (.fileError ("Failed to push file " ++ localPath ++ " to " ++ remotePath ++
        ": Local file " ++ localPath ++ " does not exist")), store)
  | some content =>
      (.ok true, fun p => if p = remotePath then some (String.mk (b64Encode content)) else store p)

/-- `FileManager.pullFile(remotePath, localPath)`: requests the remote content,
base64-decodes it and writes the bytes to the local path (creating directories
as needed — directory structure is not modelled).  A transport failure (no
content for the path) surfaces as `FileError`. -/
def pullFile (store : RemoteStore) (localFs : ByteFs) (remotePath localPath : String) :
    Except SdkError Bool × ByteFs :=
  match store remotePath with
  | none =>
      (.error (.fileError ("Failed to pull file " ++ remotePath ++ " to " ++ localPath ++
        ": no content returned")), localFs)
  | some text =>
      (.ok true, fun p => if p = localPath then some (b64Decode text.toList) else localFs p)

end FileManager

/-- C9: `pushFile(local, remote)` followed by `pullFile(remote, local2)` against
a transport that stores and returns the submitted content reproduces the local
file byte for byte (base64 encode and decode compose to the identity), and
`pushFile` fails with `FileError` when the local source file does not exist. -/
theorem pushFile_pullFile_roundtrip (localFs : ByteFs) (store : RemoteStore)
    (localPath remotePath localPath2 : String) (content : List Nat) :
    (localFs localPath = some content → (∀ b ∈ content, b < 256) →
      (FileManager.pushFile localFs store localPath remotePath).1 = .ok true ∧
      (FileManager.pullFile (FileManager.pushFile localFs store localPath remotePath).2
        localFs remotePath localPath2).1 = .ok true ∧
      (FileManager.pullFile (FileManager.pushFile localFs store localPath remotePath).2
        localFs remotePath localPath2).2 localPath2 = some content) ∧
    (localFs localPath = none →
      SdkError.isFileError (FileManager.pushFile localFs store localPath remotePath).1 = true) := by
  constructor
  · intro hsome hbytes
    refine ⟨?_, ?_, ?_⟩
    · simp [FileManager.pushFile, hsome]
    · simp [FileManager.pushFile, FileManager.pullFile, hsome]
    · simp [FileManager.pushFile, FileManager.pullFile, hsome, String.toList,
            b64_roundtrip content hbytes]
  · intro hnone
    simp [FileManager.pushFile, hnone, SdkError.isFileError]

/-- Witness for C9 at a concrete one-byte file. -/
theorem pushFile_pullFile_roundtrip_witness :
    (FileManager.pullFile
        (FileManager.pushFile (fun p => if p = "/tmp/a" then some [65] else none)
          (fun _ => none) "/tmp/a" "/sdcard/a").2
        (fun p => if p = "/tmp/a" then some [65] else none) "/sdcard/a" "/tmp/b").2 "/tmp/b"
      = some [65] ∧
    SdkError.isFileError
      (FileManager.pushFile (fun _ => none) (fun _ => none) "/tmp/missing" "/sdcard/x").1 = true := by
  constructor
  · exact ((pushFile_pullFile_roundtrip (fun p => if p = "/tmp/a" then some [65] else none)
      (fun _ => none) "/tmp/a" "/sdcard/a" "/tmp/b" [65]).1 (by simp) (by decide)).2.2
  · exact (pushFile_pullFile_roundtrip (fun _ => none) (fun _ => none)
      "/tmp/missing" "/sdcard/x" "" []).2 rfl

/-! ## StreamManager (`stream/manager.js`)

Local state is `streamId` / `streamUrl` / `isStreaming`.  The API client call
in `stop()` (`DELETE /stream/{streamId}`) is an oracle: `.ok u` when the
transport resolves, `.error m` when `apiClient.delete` throws (`ApiError` with
message `m`). -/

/-- Local state held by a `StreamManager` instance. -/
structure StreamState : Type where
  streamId : Option String
  streamUrl : Option String
  isStreaming : Bool
  deriving DecidableEq, Repr

namespace StreamManager

/-- `StreamManager.stop()`: returns `true` immediately when not streaming;
otherwise issues `DELETE /stream/{streamId}` and, when that resolves, clears
`isStreaming` and `streamUrl` (the stored `streamId` is left in place) and
returns `true`; when the request throws, the error is wrapped into a
`StreamError` and the local state is left untouched.  The third component
records whether the teardown request was issued. -/
def stop (st : StreamState) (api : Except String Unit) :
    Except SdkError Bool × StreamState × Bool :=
  if st.isStreaming = false then
    (.ok true, st, false)
  else
    match api with
    | .ok _ => (.ok true, { st with isStreaming := false, streamUrl := none }, true)
    | .error m => (.error (.streamError ("Failed to stop stream: " ++ m)), st, true)

end StreamManager

/-- C1 counterexample: the claim says `stop()` on a streaming manager
unconditionally clears the stored stream id and url and transitions to Idle
even when the teardown request fails.  At the concrete streaming state below:
(i) when the teardown request fails the manager stays Streaming (nothing is
cleared and a `StreamError` is raised), and (ii) even when the teardown request
succeeds the stored stream id is not cleared. -/
theorem streamStop_claim_counterexample :
    (StreamManager.stop ⟨some "sid-1", some "wss://u", true⟩ (.error "network down")).2.1.isStreaming
        = true ∧
    (StreamManager.stop ⟨some "sid-1", some "wss://u", true⟩ (.error "network down")).2.1.streamUrl
        = some "wss://u" ∧
    SdkError.isStreamError
      (StreamManager.stop ⟨some "sid-1", some "wss://u", true⟩ (.error "network down")).1 = true ∧
    (StreamManager.stop ⟨some "sid-1", some "wss://u", true⟩ (.ok ())).2.1.streamId
        = some "sid-1" := by
  refine ⟨rfl, rfl, rfl, rfl⟩

/-- C1 (amended): `stop()` never raises when the manager is not streaming — it
is a no-op returning success with no teardown request issued.  When streaming,
it issues the teardown request; if the request resolves it clears the streaming
flag and the stored url (retaining the stream id) and returns success, and if
the request fails it raises `StreamError` and leaves the state unchanged (still
Streaming). -/
theorem streamStop_spec (st : StreamState) (api : Except String Unit) :
    (st.isStreaming = false → StreamManager.stop st api = (.ok true, st, false)) ∧
    (st.isStreaming = true →
      (∀ u, api = .ok u →
        StreamManager.stop st api =
          (.ok true, { st with isStreaming := false, streamUrl := none }, true)) ∧
      (∀ m, api = .error m →
        StreamManager.stop st api =
          (.error (.streamError ("Failed to stop stream: " ++ m)), st, true))) := by
  refine ⟨?_, ?_⟩
  · intro hIdle
    simp [StreamManager.stop, hIdle]
  · intro hOn
    refine ⟨?_, ?_⟩
    · intro u hu
      subst hu
      simp [StreamManager.stop, hOn]
    · intro m hm
      subst hm
      simp [StreamManager.stop, hOn]

/-- Witness for C1 (amended) at concrete idle and streaming states. -/
theorem streamStop_spec_witness :
    StreamManager.stop ⟨none, none, false⟩ (.ok ()) = (.ok true, ⟨none, none, false⟩, false) ∧
    StreamManager.stop ⟨some "sid-1", some "wss://u", true⟩ (.ok ()) =
      (.ok true, ⟨some "sid-1", none, false⟩, true) ∧
    StreamManager.stop ⟨some "sid-1", some "wss://u", true⟩ (.error "boom") =
      (.error (.streamError "Failed to stop stream: boom"),
        ⟨some "sid-1", some "wss://u", true⟩, true) := by
  refine ⟨(streamStop_spec ⟨none, none, false⟩ (.ok ())).1 rfl,
    ((streamStop_spec ⟨some "sid-1", some "wss://u", true⟩ (.ok ())).2 rfl).1 () rfl,
    ((streamStop_spec ⟨some "sid-1", some "wss://u", true⟩ (.error "boom")).2 rfl).2 "boom" rfl⟩

/-! ## RecordManager (`record/manager.js`)

Local state is `recordingId` / `isRecording` / `recordingStartTime`.  Remote
effects — shell commands issued through `executeShellCommand`, the fixed
`setTimeout` settle delay, `files.fileExists` probes, `files.deleteFile` and
`files.pullFile` delegations — are recorded in an action trace. -/

/-- A remote effect performed by a `RecordManager` operation, in order. -/
inductive RecAction : Type
  | shellCmd (command : String)
  | waitMs (duration : Nat)
  | checkExists (path : String)
  | deleteFileAct (path : String)
  | pullFileAct (remotePath localPath : String)
  deriving DecidableEq, Repr

/-- Local state held by a `RecordManager` instance. -/
structure RecordState : Type where
  recordingId : Option String
  isRecording : Bool
  recordingStartTime : Option Nat
  deriving DecidableEq, Repr

/-- JavaScript template-literal rendering of the stored recording id
(`null` prints as the string `null`). -/
def recIdStr : Option String → String
  | some s => s
  | none => "null"

/-- Device-side artifact path `/sdcard/recording_<id>.mp4`. -/
def recordingPathOf (id : String) : String :=
  "/sdcard/recording_" ++ id ++ ".mp4"

namespace RecordManager

/-- Recording options accepted by `RecordManager.start`. -/
structure StartOptions : Type where
  width : Nat
  height : Nat
  bitRate : Nat
  audio : Bool
  timeLimit : Nat
  deriving DecidableEq, Repr

/-- The `screenrecord` shell command built by `RecordManager.start`. -/
def startCommand (o : StartOptions) (id : String) : String :=
  "screenrecord --size " ++ toString o.width ++ "x" ++ toString o.height ++
  " --bit-rate " ++ toString o.bitRate ++ "M " ++
  (if o.audio then "--audio-source=mic" else "--audio-source=none") ++
  " --time-limit " ++ toString o.timeLimit ++ " " ++ recordingPathOf id

/-- `RecordManager.start(options)`: returns the current id unchanged when a
recording is already in progress.  Otherwise stores the freshly generated id
`newId` in `recordingId` first, then issues the `screenrecord` shell command;
on success sets `isRecording` and `recordingStartTime` (`now`), on shell
failure raises `RecordingError` with the new id already tracked and
`isRecording` still false. -/
def start (st : RecordState) (o : StartOptions) (newId : String) (now : Nat)
    (shellRes : Except String Unit) :
    Except SdkError (Option String) × RecordState × List RecAction :=
  if st.isRecording = true then
    (.ok st.recordingId, st, [])
  else
    let st1 : RecordState := { st with recordingId := some newId }
    match shellRes with
    | .ok _ =>
        (.ok (some newId),
         { st1 with isRecording := true, recordingStartTime := some now },
         [.shellCmd (startCommand o newId)])
    | .error m =>
        (.error (.recordingError ("Failed to start recording: " ++ m)), st1,
         [.shellCmd (startCommand o newId)])

/-- `RecordManager.stop()`: raises `RecordingError` when no recording is in
progress.  Otherwise sends `pkill -INT screenrecord`, waits the fixed 2000 ms
settle delay, clears `isRecording`, then probes the artifact path through
`files.fileExists`; a negative probe raises `RecordingError` even though
`isRecording` has already been cleared. -/
def stop (st : RecordState) (fileExistsRes : Bool) :
    Except SdkError String × RecordState × List RecAction :=
  if st.isRecording = false then
    (.error (.recordingError "Failed to stop recording: No active recording to stop"), st, [])
  else
    let path := recordingPathOf (recIdStr st.recordingId)
    let st1 : RecordState := { st with isRecording := false }
    let acts : List RecAction :=
      [.shellCmd "pkill -INT screenrecord", .waitMs 2000, .checkExists path]
    if fileExistsRes = true then
      (.ok path, st1, acts)
    else
      (.error (.recordingError "Failed to stop recording: Recording file not found"), st1, acts)

/-- `RecordManager.saveRecording(localPath)`: raises `RecordingError` while a
recording is in progress or when no recording id is tracked; otherwise
delegates to `files.pullFile` on the conventional artifact path. -/
def saveRecording (st : RecordState) (localPath : String) (pullRes : Except String Unit) :
    Except SdkError Bool × List RecAction :=
  if st.isRecording = true then
    (.error (.recordingError ("Failed to save recording to " ++ localPath ++
      ": Cannot save while recording is in progress")), [])
  else
    match st.recordingId with
    | none =>
        (.error (.recordingError ("Failed to save recording to " ++ localPath ++
          ": No recording available to save")), [])
    | some id =>
        match pullRes with
        | .ok _ => (.ok true, [.pullFileAct (recordingPathOf id) localPath])
        | .error m =>
            (.error (.recordingError ("Failed to save recording to " ++ localPath ++
              ": " ++ m)), [.pullFileAct (recordingPathOf id) localPath])

/-- `RecordManager.deleteRecording(recordingId = this.recordingId)`: the
argument defaults to the tracked id (`arg = none` models a defaulted call).
A null effective id raises `RecordingError`; deleting the active recording id
while recording raises `RecordingError` before any device-side delete is
issued; otherwise the artifact is deleted via `files.deleteFile` and, when the
deleted id is the tracked one, the tracked id is cleared. -/
def deleteRecording (st : RecordState) (arg : Option String) (deleteRes : Except String Unit) :
    Except SdkError Bool × RecordState × List RecAction :=
  let rid : Option String :=
    match arg with
    | some r => some r
    | none => st.recordingId
  match rid with
  | none =>
      (.error (.recordingError "Failed to delete recording: No recording ID provided"), st, [])
  | some r =>
      if st.isRecording = true ∧ st.recordingId = some r then
        (.error (.recordingError "Failed to delete recording: Cannot delete active recording"),
         st, [])
      else
        match deleteRes with
        | .ok _ =>
            (.ok true,
             if st.recordingId = some r then { st with recordingId := none } else st,
             [.deleteFileAct (recordingPathOf r)])
        | .error m =>
            (.error (.recordingError ("Failed to delete recording: " ++ m)), st,
             [.deleteFileAct (recordingPathOf r)])

end RecordManager

/-- C2: `stop()` fails with `RecordingError` when no recording is in progress
(state and trace untouched).  When a recording is in progress it sends the
interrupt signal, waits the fixed 2000 ms settle delay, clears the recording
flag, then probes the artifact path; a negative probe makes `stop()` raise
`RecordingError` even though the state already shows not-recording, while a
positive probe returns the artifact path. -/
theorem recordStop_spec (st : RecordState) (fe : Bool) :
    (st.isRecording = false →
      RecordManager.stop st fe =
        (.error (.recordingError "Failed to stop recording: No active recording to stop"),
         st, [])) ∧
    (st.isRecording = true →
      (RecordManager.stop st fe).2.2 =
        [.shellCmd "pkill -INT screenrecord", .waitMs 2000,
         .checkExists (recordingPathOf (recIdStr st.recordingId))] ∧
      (RecordManager.stop st fe).2.1.isRecording = false ∧
      (fe = false → SdkError.isRecordingError (RecordManager.stop st fe).1 = true ∧
        (RecordManager.stop st fe).1 =
          .error (.recordingError "Failed to stop recording: Recording file not found")) ∧
      (fe = true →
        (RecordManager.stop st fe).1 = .ok (recordingPathOf (recIdStr st.recordingId)))) := by
  refine ⟨?_, ?_⟩
  · intro hIdle
    simp [RecordManager.stop, hIdle]
  · intro hRec
    refine ⟨?_, ?_, ?_, ?_⟩
    · cases fe <;> simp [RecordManager.stop, hRec]
    · cases fe <;> simp [RecordManager.stop, hRec]
    · intro hfe
      subst hfe
      simp [RecordManager.stop, hRec, SdkError.isRecordingError]
    · intro hfe
      subst hfe
      simp [RecordManager.stop, hRec]

/-- Witness for C2: an idle manager, and a recording manager probed with both
existence-check outcomes. -/
theorem recordStop_spec_witness :
    RecordManager.stop ⟨none, false, none⟩ true =
      (.error (.recordingError "Failed to stop recording: No active recording to stop"),
       ⟨none, false, none⟩, []) ∧
    (RecordManager.stop ⟨some "r1", true, some 7⟩ false).2.1.isRecording = false ∧
    SdkError.isRecordingError (RecordManager.stop ⟨some "r1", true, some 7⟩ false).1 = true ∧
    (RecordManager.stop ⟨some "r1", true, some 7⟩ true).1 =
      .ok "/sdcard/recording_r1.mp4" := by
  refine ⟨(recordStop_spec ⟨none, false, none⟩ true).1 rfl,
    ((recordStop_spec ⟨some "r1", true, some 7⟩ false).2 rfl).2.1,
    (((recordStop_spec ⟨some "r1", true, some 7⟩ false).2 rfl).2.2.1 rfl).1,
    ((recordStop_spec ⟨some "r1", true, some 7⟩ true).2 rfl).2.2.2 rfl⟩

/-- C4: while a recording is in progress on the active id, `deleteRecording`
fails with `RecordingError` for both argument forms — the active id passed
explicitly or the argument defaulted to the tracked id — and neither form
issues a device-side delete (empty action trace, state unchanged). -/
theorem deleteRecording_active_spec (st : RecordState) (r : String)
    (del : Except String Unit) (hRec : st.isRecording = true)
    (hId : st.recordingId = some r) :
    RecordManager.deleteRecording st (some r) del =
      (.error (.recordingError "Failed to delete recording: Cannot delete active recording"),
       st, []) ∧
    RecordManager.deleteRecording st none del =
      (.error (.recordingError "Failed to delete recording: Cannot delete active recording"),
       st, []) := by
  constructor
  · simp [RecordManager.deleteRecording, hRec, hId]
  · simp [RecordManager.deleteRecording, hRec, hId]

/-- Witness for C4 at a concrete recording state. -/
theorem deleteRecording_active_spec_witness :
    RecordManager.deleteRecording ⟨some "r1", true, some 7⟩ (some "r1") (.ok ()) =
      (.error (.recordingError "Failed to delete recording: Cannot delete active recording"),
       ⟨some "r1", true, some 7⟩, []) ∧
    RecordManager.deleteRecording ⟨some "r1", true, some 7⟩ none (.ok ()) =
      (.error (.recordingError "Failed to delete recording: Cannot delete active recording"),
       ⟨some "r1", true, some 7⟩, []) :=
  deleteRecording_active_spec ⟨some "r1", true, some 7⟩ "r1" (.ok ()) rfl rfl

/-- C10: when no recording is in progress, `start()` stores the freshly
generated id before issuing the `screenrecord` command, so a failing command
leaves the manager not-recording but with the tracked id overwritten by the
failed id; a subsequent defaulted-id `deleteRecording` or `saveRecording`
therefore targets the failed recording's artifact path. -/
theorem recordStart_failure_spec (st : RecordState) (o : RecordManager.StartOptions)
    (newId : String) (now : Nat) (m localPath : String)
    (hIdle : st.isRecording = false) :
    SdkError.isRecordingError (RecordManager.start st o newId now (.error m)).1 = true ∧
    (RecordManager.start st o newId now (.error m)).2.1.isRecording = false ∧
    (RecordManager.start st o newId now (.error m)).2.1.recordingId = some newId ∧
    (RecordManager.start st o newId now (.error m)).2.2 =
      [.shellCmd (RecordManager.startCommand o newId)] ∧
    (RecordManager.deleteRecording (RecordManager.start st o newId now (.error m)).2.1
        none (.ok ())).2.2 = [.deleteFileAct (recordingPathOf newId)] ∧
    (RecordManager.saveRecording (RecordManager.start st o newId now (.error m)).2.1
        localPath (.ok ())).2 =
      [.pullFileAct (recordingPathOf newId) localPath] := by
  refine ⟨?_, ?_, ?_, ?_, ?_, ?_⟩ <;>
    simp [RecordManager.start, RecordManager.deleteRecording, RecordManager.saveRecording,
          hIdle, SdkError.isRecordingError]

/-- Witness for C10 at a concrete idle state and failing shell command. -/
theorem recordStart_failure_spec_witness :
    SdkError.isRecordingError
      (RecordManager.start ⟨some "old", false, none⟩ ⟨1280, 720, 8, true, 180⟩ "new" 3
        (.error "boom")).1 = true ∧
    (RecordManager.start ⟨some "old", false, none⟩ ⟨1280, 720, 8, true, 180⟩ "new" 3
        (.error "boom")).2.1.recordingId = some "new" ∧
    (RecordManager.deleteRecording
        (RecordManager.start ⟨some "old", false, none⟩ ⟨1280, 720, 8, true, 180⟩ "new" 3
          (.error "boom")).2.1 none (.ok ())).2.2 =
      [.deleteFileAct "/sdcard/recording_new.mp4"] := by
  refine ⟨(recordStart_failure_spec ⟨some "old", false, none⟩ ⟨1280, 720, 8, true, 180⟩
      "new" 3 "boom" "/tmp/v.mp4" rfl).1,
    (recordStart_failure_spec ⟨some "old", false, none⟩ ⟨1280, 720, 8, true, 180⟩
      "new" 3 "boom" "/tmp/v.mp4" rfl).2.2.1,
    (recordStart_failure_spec ⟨some "old", false, none⟩ ⟨1280, 720, 8, true, 180⟩
      "new" 3 "boom" "/tmp/v.mp4" rfl).2.2.2.2.1⟩

/-! ## AppManager (`apps/manager.js`)

App state is never materialized locally: every operation issues shell commands
through `executeShellCommand`, modelled as a total oracle from command strings
to output strings.  The command trace of `launch` is returned alongside the
result so that "no activity-resolution call was issued" is provable. -/

/-- Substring search on character lists: `hasSubstring sub s` is the
`String.prototype.includes` check used by `isInstalled`. -/
def hasSubstring (sub : List Char) : List Char → Bool
  | [] => sub.isEmpty
  | c :: rest => sub.isPrefixOf (c :: rest) || hasSubstring sub rest

theorem hasSubstring_iff (sub : List Char) : ∀ s : List Char,
    hasSubstring sub s = true ↔ sub <:+: s := by
  intro s
  induction s with
  | nil =>
    simp [hasSubstring, List.isEmpty_iff]
  | cons c rest ih =>
    simp [hasSubstring, List.isPrefixOf_iff_prefix, ih, List.infix_cons_iff]

/-- JavaScript `\s` on the characters that occur in shell output. -/
def jsWhitespaceChar (c : Char) : Bool :=
  c = ' ' || c = '\t' || c = '\n' || c = '\r' || c = '\x0b' || c = '\x0c'

/-- Trim leading and trailing JavaScript whitespace from a character list. -/
def trimJs (l : List Char) : List Char :=
  ((l.dropWhile jsWhitespaceChar).reverse.dropWhile jsWhitespaceChar).reverse

/-- Split a character list at newline characters (the line structure used by
the multiline anchors of the JavaScript regular expressions). -/
def splitOnNewline : List Char → List (List Char)
  | [] => [[]]
  | c :: rest =>
      match splitOnNewline rest with
      | [] => [[]]
      | cur :: done => if c = '\n' then [] :: cur :: done else (c :: cur) :: done

/-- The single-line pattern `/^\s*([^\s]+)\s*$/m` applied to one line: the
captured token when the line is whitespace around one whitespace-free token. -/
def lineTokenMatch (line : List Char) : Option String :=
  let t := trimJs line
  if !t.isEmpty && t.all (fun c => !jsWhitespaceChar c) then some (String.mk t) else none

/-- Denotation of `output.match(/^\s*([^\s]+)\s*$/m)` in `launch`: the first
line of the output consisting of one whitespace-free token (with surrounding
whitespace allowed) yields that token; no such line means no match. -/
def resolveActivityMatch (output : String) : Option String :=
  (splitOnNewline output.toList).findSome? lineTokenMatch

namespace AppManager

/-- `AppManager.isInstalled(packageName)`: runs
`pm list packages <packageName>` and applies the JavaScript
`output.includes('package:' + packageName)` substring check. -/
def isInstalled (shellExec : String → String) (packageName : String) : Bool :=
  hasSubstring ("package:" ++ packageName).toList
    (shellExec ("pm list packages " ++ packageName)).toList

/-- Modelled from the spec: the spec describes `isInstalled` as checking for an
*exact* `package:<pkg>` token in the output; rendered as "some output line is
exactly `package:<pkg>` after trimming".  Stated only to compare against the
source behaviour (`AppManager.isInstalled`). -/
def specExactPackageToken (packageName output : String) : Bool :=
  (splitOnNewline output.toList).any
    (fun line => String.mk (trimJs line) == "package:" ++ packageName)

/-- The `AppError` message for launching a package that is not installed,
after the wrapping performed by `launch`'s catch block. -/
def notInstalledMsg (packageName : String) : String :=
  "Failed to launch app " ++ packageName ++ ": App " ++ packageName ++ " is not installed"

/-- The `AppError` message for a package whose main activity cannot be
resolved, after the wrapping performed by `launch`'s catch block. -/
def cannotResolveMsg (packageName : String) : String :=
  "Failed to launch app " ++ packageName ++ ": Could not find main activity for " ++ packageName

/-- `AppManager.launch(packageName)`: checks installation first (one shell
call); raises `AppError` when not installed.  Otherwise resolves the main
activity with `cmd package resolve-activity --brief` and the single-line
pattern; no match raises the distinct cannot-resolve `AppError`, and a match
starts the activity.  The second component lists the shell commands issued, in
order. -/
def launch (shellExec : String → String) (packageName : String) :
    Except SdkError Bool × List String :=
  let listCmd := "pm list packages " ++ packageName
  if isInstalled shellExec packageName = false then
    (.error (.appError (notInstalledMsg packageName)), [listCmd])
  else
    let resolveCmd := "cmd package resolve-activity --brief " ++ packageName
    match resolveActivityMatch (shellExec resolveCmd) with
    | none => (.error (.appError (cannotResolveMsg packageName)), [listCmd, resolveCmd])
    | some activity => (.ok true, [listCmd, resolveCmd, "am start -n " ++ activity])

end AppManager

/-- C5 counterexample: the claim says `isInstalled(pkg)` is true iff the output
contains the exact token `package:<pkg>`, so that `package:<pkg>.extra` must
not count.  The code uses a JavaScript substring `includes` check: on the
output `package:com.example.app.extra` for pkg `com.example.app`, the code
returns `true` while the exact-token reading is `false`. -/
theorem isInstalled_claim_counterexample :
    AppManager.isInstalled (fun _ => "package:com.example.app.extra") "com.example.app" = true ∧
    AppManager.specExactPackageToken "com.example.app" "package:com.example.app.extra" = false := by
  constructor
  · decide
  · decide

/-- C5 (amended): for every package name and every shell output,
`isInstalled(pkg)` returns `true` iff the output contains `package:<pkg>` as a
(not necessarily token-delimited) substring — so an output where
`package:<pkg>` occurs only as a proper prefix of a longer package name, such
as `package:<pkg>.extra`, still counts as installed. -/
theorem isInstalled_substring_spec (shellExec : String → String) (packageName : String) :
    AppManager.isInstalled shellExec packageName = true ↔
      ("package:" ++ packageName).toList <:+:
        (shellExec ("pm list packages " ++ packageName)).toList :=
  hasSubstring_iff ("package:" ++ packageName).toList
    (shellExec ("pm list packages " ++ packageName)).toList

/-- C6: `launch(pkg)` on a package whose install check returns false fails with
the not-installed `AppError` and issues only the package-list shell command —
no activity-resolution command.  When the install check succeeds but the
activity-resolution output matches no single line, it fails with the distinct
cannot-resolve `AppError` (the two messages differ for every package name). -/
theorem launch_errors_spec (shellExec : String → String) (packageName : String) :
    (AppManager.isInstalled shellExec packageName = false →
      AppManager.launch shellExec packageName =
        (.error (.appError (AppManager.notInstalledMsg packageName)),
         ["pm list packages " ++ packageName])) ∧
    (AppManager.isInstalled shellExec packageName = true →
      resolveActivityMatch
          (shellExec ("cmd package resolve-activity --brief " ++ packageName)) = none →
      AppManager.launch shellExec packageName =
        (.error (.appError (AppManager.cannotResolveMsg packageName)),
         ["pm list packages " ++ packageName,
          "cmd package resolve-activity --brief " ++ packageName])) ∧
    AppManager.notInstalledMsg packageName ≠ AppManager.cannotResolveMsg packageName := by
  refine ⟨?_, ?_, ?_⟩
  · intro hNot
    simp [AppManager.launch, hNot]
  · intro hInst hNoMatch
    simp [AppManager.launch, hInst, hNoMatch]
  · intro heq
    have hl := congrArg String.length heq
    simp only [AppManager.notInstalledMsg, AppManager.cannotResolveMsg,
      String.length_append] at hl
    have e1 : (": App " : String).length = 6 := rfl
    have e2 : (" is not installed" : String).length = 17 := rfl
    have e3 : (": Could not find main activity for " : String).length = 35 := rfl
    rw [e1, e2, e3] at hl
    omega

/-- Witness for C6: a shell whose package list is empty (not installed), and a
shell that lists the package but yields no resolvable activity line. -/
theorem launch_errors_spec_witness :
    AppManager.launch (fun _ => "") "com.app" =
      (.error (.appError "Failed to launch app com.app: App com.app is not installed"),
       ["pm list packages com.app"]) ∧
    AppManager.launch (fun c => if c = "pm list packages com.app" then "package:com.app" else "")
        "com.app" =
      (.error (.appError "Failed to launch app com.app: Could not find main activity for com.app"),
       ["pm list packages com.app", "cmd package resolve-activity --brief com.app"]) := by
  constructor
  · exact (launch_errors_spec (fun _ => "") "com.app").1 (by decide)
  · exact ((launch_errors_spec
      (fun c => if c = "pm list packages com.app" then "package:com.app" else "")
      "com.app").2.1 (by decide) (by decide))

/-! ## AndroidSandbox (`sandbox.js`)

Device provisioning, the polling primitive `waitForApp`, and the best-effort
input/display operations.  Each axios call is an oracle value: `resolved s d`
when the promise resolves with HTTP status `s` (axios resolves only 2xx by
default) and body `d`, `failed m` when the request throws without a response
(no response received or request-construction error are collapsed into the
message for operations that do not distinguish them). -/

/-- Outcome of one axios request as seen by a caller. -/
inductive HttpOutcome (α : Type) : Type
  | resolved (status : Nat) (data : α)
  | failed (msg : String)

/-- JavaScript truthiness of an optional string field: `undefined` and the
empty string are both falsy. -/
def truthy : Option String → Option String
  | some v => if v = "" then none else some v
  | none => none

namespace AndroidSandbox

/-- Outcome of the provisioning `POST /devices` request, following the axios
error shape tested in the catch block of `_initializeDevice`:
`resolved` (2xx), `errResponse` (server responded outside 2xx, `e.response`
set), `errNoResponse` (`e.request` set), `errSetup` (request construction
failed). -/
inductive InitOutcome : Type
  | resolved (status : Nat) (device_id : Option String) (errorField : Option String)
  | errResponse (status : Nat) (errorField : Option String)
  | errNoResponse
  | errSetup (msg : String)

/-- The `Failed to initialize device: …` message, preferring the truthy
`error` field of the response body over the bare status code. -/
def failedInitMsg (status : Nat) (errorField : Option String) : String :=
  match truthy errorField with
  | some e => "Failed to initialize device: " ++ e
  | none => "Failed to initialize device: " ++ toString status

/-- `AndroidSandbox._initializeDevice()`: on a 201 with a truthy `device_id`
stores and returns it; a 201 without one throws `ConnectionError` inside the
try block, which the catch block re-wraps (still a `ConnectionError`); every
transport-level failure is normalized into a `ConnectionError`.  The second
component is the stored `_device_id` after the call. -/
def initializeDevice (deviceId : Option String) (o : InitOutcome) :
    Except SdkError String × Option String :=
  match o with
  | .resolved status did ef =>
      if status = 201 then
        match truthy did with
        | some d => (.ok d, some d)
        | none =>
            (.error (.connectionError
              "Connection error when initializing device: Missing device_id in API response"),
             deviceId)
      else
        (.error (.connectionError
          ("Connection error when initializing device: " ++ failedInitMsg status ef)), deviceId)
  | .errResponse status ef =>
      (.error (.connectionError (failedInitMsg status ef)), deviceId)
  | .errNoResponse =>
      (.error (.connectionError
        "Connection error when initializing device: No response received"), deviceId)
  | .errSetup m =>
      (.error (.connectionError ("Connection error when initializing device: " ++ m)), deviceId)

end AndroidSandbox

/-- C3: a provisioning response with HTTP status 201 whose body lacks a
`device_id` makes session creation raise `ConnectionError` with the stored
device identifier left untouched (in particular still unset — the session
never becomes Active); and every transport-level failure — non-2xx response,
no response received, or request-construction error — also surfaces as a
`ConnectionError`, likewise leaving the identifier untouched. -/
theorem initializeDevice_errors_spec (deviceId : Option String)
    (ef : Option String) (status : Nat) (m : String) :
    (SdkError.isConnectionError
        (AndroidSandbox.initializeDevice deviceId (.resolved 201 none ef)).1 = true ∧
      (AndroidSandbox.initializeDevice deviceId (.resolved 201 none ef)).2 = deviceId) ∧
    (SdkError.isConnectionError
        (AndroidSandbox.initializeDevice deviceId (.errResponse status ef)).1 = true ∧
      (AndroidSandbox.initializeDevice deviceId (.errResponse status ef)).2 = deviceId) ∧
    (SdkError.isConnectionError
        (AndroidSandbox.initializeDevice deviceId .errNoResponse).1 = true ∧
      (AndroidSandbox.initializeDevice deviceId .errNoResponse).2 = deviceId) ∧
    (SdkError.isConnectionError
        (AndroidSandbox.initializeDevice deviceId (.errSetup m)).1 = true ∧
      (AndroidSandbox.initializeDevice deviceId (.errSetup m)).2 = deviceId) := by
  refine ⟨⟨?_, rfl⟩, ⟨?_, rfl⟩, ⟨rfl, rfl⟩, ⟨rfl, rfl⟩⟩
  · simp [AndroidSandbox.initializeDevice, truthy, SdkError.isConnectionError]
  · cases h : truthy ef <;>
      simp [AndroidSandbox.initializeDevice, AndroidSandbox.failedInitMsg, h,
            SdkError.isConnectionError]

/-! ### waitForApp -/

/-- Outcome of one `GET /devices/{id}/current_app` poll: `ok` is a resolved
status-200 response carrying the optional `package_name` field, `httpError` a
resolved non-200 status (warned about), `netError` a thrown request (logged). -/
inductive PollResult : Type
  | ok (package_name : Option String)
  | httpError (status : Nat)
  | netError (msg : String)

/-- Does one poll report the target package as foreground?  Mirrors
`(result.package_name || "") === package_name` on a 200 response; any other
outcome does not match. -/
def pollMatches (target : String) : PollResult → Bool
  | .ok pn => (pn.getD "") == target
  | _ => false

namespace AndroidSandbox

/-- The polling loop of `AndroidSandbox.waitForApp`.  `endTime` is
`Date.now() + timeout_ms` with time measured from entry, `k` the number of
polls issued so far, `t` the current time.  Each iteration issues poll `k`
(taking `dur k` milliseconds), returns `true` on a match, and otherwise sleeps
the fixed 500 ms interval before re-checking the clock.  Returns the result
and the total number of polls issued. -/
def waitForAppRun (target : String) (poll : Nat → PollResult) (dur : Nat → Nat)
    (endTime k t : Nat) : Bool × Nat :=
  if h : t < endTime then
    if pollMatches target (poll k) then (true, k + 1)
    else waitForAppRun target poll dur endTime (k + 1) (t + dur k + 500)
  else (false, k)
termination_by endTime - t
decreasing_by omega

/-- `AndroidSandbox.waitForApp(package_name, timeout_ms)`: runs the polling
loop from time 0 with no polls issued yet. -/
def waitForApp (target : String) (poll : Nat → PollResult) (dur : Nat → Nat)
    (timeout : Nat) : Bool × Nat :=
  waitForAppRun target poll dur timeout 0 0

theorem waitForAppRun_false (target : String) (poll : Nat → PollResult) (dur : Nat → Nat)
    (endTime k t : Nat) (h : ∀ j, pollMatches target (poll j) = false) :
    (waitForAppRun target poll dur endTime k t).1 = false := by
  rw [waitForAppRun]
  split
  · rw [h k]
    simp only [Bool.false_eq_true, if_false]
    exact waitForAppRun_false target poll dur endTime (k + 1) (t + dur k + 500) h
  · rfl
termination_by endTime - t
decreasing_by omega

theorem waitForAppRun_count_ge (target : String) (poll : Nat → PollResult) (dur : Nat → Nat)
    (endTime k t : Nat) : k ≤ (waitForAppRun target poll dur endTime k t).2 := by
  rw [waitForAppRun]
  split
  · split
    · simp
    · have := waitForAppRun_count_ge target poll dur endTime (k + 1) (t + dur k + 500)
      omega
  · simp
termination_by endTime - t
decreasing_by omega

theorem waitForAppRun_count_le (target : String) (poll : Nat → PollResult) (dur : Nat → Nat)
    (endTime k t : Nat) :
    (waitForAppRun target poll dur endTime k t).2 ≤ k + (endTime - t + 499) / 500 := by
  rw [waitForAppRun]
  split
  · split
    · simp
      omega
    · have := waitForAppRun_count_le target poll dur endTime (k + 1) (t + dur k + 500)
      omega
  · simp
termination_by endTime - t
decreasing_by omega

/-- One unfolding of the loop: a matching poll inside the window returns
`true` immediately, counting that poll. -/
theorem waitForAppRun_match_head (target : String) (poll : Nat → PollResult) (dur : Nat → Nat)
    (endTime k t : Nat) (hm : pollMatches target (poll k) = true) (ht : t < endTime) :
    waitForAppRun target poll dur endTime k t = (true, k + 1) := by
  rw [waitForAppRun]
  simp [ht, hm]

/-- One unfolding of the loop: a non-matching poll inside the window recurses
after the fixed 500 ms sleep. -/
theorem waitForAppRun_step (target : String) (poll : Nat → PollResult) (dur : Nat → Nat)
    (endTime k t : Nat) (hm : ¬pollMatches target (poll k) = true) (ht : t < endTime) :
    waitForAppRun target poll dur endTime k t =
      waitForAppRun target poll dur endTime (k + 1) (t + dur k + 500) := by
  rw [waitForAppRun]
  simp [ht, hm]

theorem waitForAppRun_first_match (target : String) (poll : Nat → PollResult) (dur : Nat → Nat)
    (endTime k t : Nat) (htrue : (waitForAppRun target poll dur endTime k t).1 = true) :
    pollMatches target (poll ((waitForAppRun target poll dur endTime k t).2 - 1)) = true ∧
    ∀ j, k ≤ j → j < (waitForAppRun target poll dur endTime k t).2 - 1 →
      pollMatches target (poll j) = false := by
  by_cases hlt : t < endTime
  · by_cases hm : pollMatches target (poll k) = true
    · rw [waitForAppRun_match_head target poll dur endTime k t hm hlt]
      refine ⟨by simpa using hm, ?_⟩
      intro j hkj hjlt
      simp at hjlt
      omega
    · rw [waitForAppRun_step target poll dur endTime k t hm hlt] at htrue ⊢
      have ih := waitForAppRun_first_match target poll dur endTime (k + 1)
        (t + dur k + 500) htrue
      refine ⟨ih.1, ?_⟩
      intro j hkj hjlt
      rcases Nat.eq_or_lt_of_le hkj with rfl | hk1
      · simpa using hm
      · exact ih.2 j hk1 hjlt
  · rw [waitForAppRun] at htrue
    simp [hlt] at htrue
termination_by endTime - t
decreasing_by omega

end AndroidSandbox

/-- C7: `waitForApp(pkg, 1000)` returns `false` (it never raises) when every
poll reports something other than `pkg`; when it returns `true` the last poll
issued matched `pkg` and all earlier polls did not (it returns as soon as a
poll matches); and it always issues at least one and at most three polls, the
loop sleeping a fixed 500 ms between polls. -/
theorem waitForApp_1000_spec (target : String) (poll : Nat → PollResult) (dur : Nat → Nat) :
    ((∀ j, pollMatches target (poll j) = false) →
      (AndroidSandbox.waitForApp target poll dur 1000).1 = false) ∧
    ((AndroidSandbox.waitForApp target poll dur 1000).1 = true →
      pollMatches target (poll ((AndroidSandbox.waitForApp target poll dur 1000).2 - 1)) = true ∧
      ∀ j, j < (AndroidSandbox.waitForApp target poll dur 1000).2 - 1 →
        pollMatches target (poll j) = false) ∧
    1 ≤ (AndroidSandbox.waitForApp target poll dur 1000).2 ∧
    (AndroidSandbox.waitForApp target poll dur 1000).2 ≤ 3 := by
  refine ⟨?_, ?_, ?_, ?_⟩
  · intro h
    exact AndroidSandbox.waitForAppRun_false target poll dur 1000 0 0 h
  · intro htrue
    have h := AndroidSandbox.waitForAppRun_first_match target poll dur 1000 0 0 htrue
    exact ⟨h.1, fun j hj => h.2 j (Nat.zero_le j) hj⟩
  · have h1000 : (0 : Nat) < 1000 := by omega
    rw [AndroidSandbox.waitForApp, AndroidSandbox.waitForAppRun]
    rw [dif_pos h1000]
    split
    · simp
    · exact AndroidSandbox.waitForAppRun_count_ge target poll dur 1000 (0 + 1) (0 + dur 0 + 500)
  · have h := AndroidSandbox.waitForAppRun_count_le target poll dur 1000 0 0
    simp only [AndroidSandbox.waitForApp]
    omega

/-- Witness for C7: with every poll reporting a different package the call
returns `false` after at least one poll; with the first poll reporting the
target it returns `true` with that poll being the last one issued. -/
theorem waitForApp_1000_spec_witness :
    (AndroidSandbox.waitForApp "pkg.x" (fun _ => PollResult.ok (some "pkg.other"))
        (fun _ => 0) 1000).1 = false ∧
    1 ≤ (AndroidSandbox.waitForApp "pkg.x" (fun _ => PollResult.ok (some "pkg.other"))
        (fun _ => 0) 1000).2 ∧
    pollMatches "pkg.x"
      (PollResult.ok (some "pkg.x")) = true ∧
    (AndroidSandbox.waitForApp "pkg.x" (fun _ => PollResult.ok (some "pkg.x"))
        (fun _ => 0) 1000).2 ≤ 3 := by
  refine ⟨(waitForApp_1000_spec "pkg.x" (fun _ => PollResult.ok (some "pkg.other"))
      (fun _ => 0)).1 (fun j => by decide), ?_, ?_, ?_⟩
  · exact (waitForApp_1000_spec "pkg.x" (fun _ => PollResult.ok (some "pkg.other"))
      (fun _ => 0)).2.2.1
  · have htrue : (AndroidSandbox.waitForApp "pkg.x" (fun _ => PollResult.ok (some "pkg.x"))
        (fun _ => 0) 1000).1 = true := by
      have := AndroidSandbox.waitForAppRun_match_head "pkg.x"
        (fun _ => PollResult.ok (some "pkg.x")) (fun _ => 0) 1000 0 0 (by decide) (by omega)
      simp [AndroidSandbox.waitForApp, this]
    exact ((waitForApp_1000_spec "pkg.x" (fun _ => PollResult.ok (some "pkg.x"))
      (fun _ => 0)).2.1 htrue).1
  · exact (waitForApp_1000_spec "pkg.x" (fun _ => PollResult.ok (some "pkg.x"))
      (fun _ => 0)).2.2.2

/-! ### Best-effort input/display operations -/

/-- Body of a `GET /devices/{id}/screenshot` response: inline base64 image
data or a URL to fetch separately, either of which may be absent. -/
structure ScreenshotBody : Type where
  image_data : Option String
  image_url : Option String

namespace AndroidSandbox

/-- `AndroidSandbox.tap(x, y)` (representative of all gesture methods —
`doubleTap`, `swipe`, `longPress`, `pinchOut`, `typeText`, `pressKey`,
`pressCombo` share the same try/warn/catch shape): a non-200 status logs a
warning, a thrown request logs an error, and the call always completes
normally.  The coordinates only feed the request payload and cannot affect
control flow, so they are omitted.  The second component is the console log. -/
def tap (o : HttpOutcome Unit) : Except SdkError Unit × List String :=
  match o with
  | .resolved status _ =>
      if status = 200 then (.ok (), [])
      else (.ok (), ["Warning: Tap operation returned status code " ++ toString status])
  | .failed m => (.ok (), ["Error performing tap: " ++ m])

/-- `AndroidSandbox.screenshot()`: on a 200 response decodes inline
`image_data`, or fetches `image_url` (the inner request is the second oracle);
a non-200 status or a thrown request logs and returns an empty buffer.  A 200
response carrying neither field falls off the end of the try block, which in
the JavaScript returns `undefined` — modelled as `none`. -/
def screenshot (o : HttpOutcome ScreenshotBody) (urlFetch : HttpOutcome (List Nat)) :
    Except SdkError (Option (List Nat)) × List String :=
  match o with
  | .resolved status body =>
      if status = 200 then
        match truthy body.image_data with
        | some text => (.ok (some (b64Decode text.toList)), [])
        | none =>
            match truthy body.image_url with
            | some _ =>
                match urlFetch with
                | .resolved s2 bytes =>
                    if s2 = 200 then (.ok (some bytes), [])
                    else (.ok (some []),
                      ["Warning: Failed to download screenshot from URL: " ++ toString s2])
                | .failed m => (.ok (some []), ["Error taking screenshot: " ++ m])
            | none => (.ok none, [])
      else
        (.ok (some []), ["Warning: Screenshot operation returned status code " ++ toString status])
  | .failed m => (.ok (some []), ["Error taking screenshot: " ++ m])

/-- `AndroidSandbox.shell(command)`: a 200 response returns
`result.output || ""`, a non-200 status warns and returns the empty string, a
thrown request logs and returns the empty string. -/
def shell (o : HttpOutcome (Option String)) : Except SdkError String × List String :=
  match o with
  | .resolved status out =>
      if status = 200 then (.ok (out.getD ""), [])
      else (.ok "", ["Warning: Shell command operation returned status code " ++ toString status])
  | .failed m => (.ok "", ["Error executing shell command: " ++ m])

end AndroidSandbox

/-- C8: the best-effort input/display operations never raise — every outcome
produces an `.ok` result — and on a transport failure or a non-success status
each logs a warning and returns its safe default: plain completion for the
gesture, an empty buffer for `screenshot`, the empty string for `shell`. -/
theorem bestEffort_default_spec (o1 : HttpOutcome Unit) (o2 : HttpOutcome ScreenshotBody)
    (o3 : HttpOutcome (Option String)) (urlFetch : HttpOutcome (List Nat))
    (status : Nat) (m : String) (u : Unit) (body : ScreenshotBody) (out : Option String) :
    ((AndroidSandbox.tap o1).1 = .ok () ∧
      (AndroidSandbox.screenshot o2 urlFetch).1.isOk = true ∧
      (AndroidSandbox.shell o3).1.isOk = true) ∧
    (status ≠ 200 →
      AndroidSandbox.tap (.resolved status u) =
        (.ok (), ["Warning: Tap operation returned status code " ++ toString status]) ∧
      AndroidSandbox.screenshot (.resolved status body) urlFetch =
        (.ok (some []),
         ["Warning: Screenshot operation returned status code " ++ toString status]) ∧
      AndroidSandbox.shell (.resolved status out) =
        (.ok "",
         ["Warning: Shell command operation returned status code " ++ toString status])) ∧
    (AndroidSandbox.tap (.failed m) = (.ok (), ["Error performing tap: " ++ m]) ∧
      AndroidSandbox.screenshot (.failed m) urlFetch =
        (.ok (some []), ["Error taking screenshot: " ++ m]) ∧
      AndroidSandbox.shell (.failed m) = (.ok "", ["Error executing shell command: " ++ m])) := by
  refine ⟨⟨?_, ?_, ?_⟩, ?_, by simp [AndroidSandbox.tap, AndroidSandbox.screenshot,
    AndroidSandbox.shell]⟩
  · cases o1 with
    | resolved s d => by_cases hs : s = 200 <;> simp [AndroidSandbox.tap, hs]
    | failed m2 => simp [AndroidSandbox.tap]
  · cases o2 with
    | resolved s b =>
        by_cases hs : s = 200 <;> simp only [AndroidSandbox.screenshot, hs, if_true, if_false,
          reduceIte]
        · cases truthy b.image_data with
          | some text => simp [Except.isOk, Except.toBool]
          | none =>
              cases truthy b.image_url with
              | some url =>
                  cases urlFetch with
                  | resolved s2 bytes => by_cases hs2 : s2 = 200 <;> simp [hs2, Except.isOk, Except.toBool]
                  | failed m2 => simp [Except.isOk, Except.toBool]
              | none => simp [Except.isOk, Except.toBool]
        · simp [hs, Except.isOk, Except.toBool]
    | failed m2 => simp [AndroidSandbox.screenshot, Except.isOk, Except.toBool]
  · cases o3 with
    | resolved s d => by_cases hs : s = 200 <;> simp [AndroidSandbox.shell, hs, Except.isOk, Except.toBool]
    | failed m2 => simp [AndroidSandbox.shell, Except.isOk, Except.toBool]
  · intro hs
    refine ⟨?_, ?_, ?_⟩ <;>
      simp [AndroidSandbox.tap, AndroidSandbox.screenshot, AndroidSandbox.shell, hs]

/-- Witness for C8 at a 500 status and a network failure. -/
theorem bestEffort_default_spec_witness :
    AndroidSandbox.tap (.resolved 500 ()) =
      (.ok (), ["Warning: Tap operation returned status code 500"]) ∧
    AndroidSandbox.screenshot (.resolved 500 ⟨none, none⟩) (.failed "x") =
      (.ok (some []), ["Warning: Screenshot operation returned status code 500"]) ∧
    AndroidSandbox.shell (.failed "timeout of 30000ms exceeded") =
      (.ok "", ["Error executing shell command: timeout of 30000ms exceeded"]) := by
  have h := bestEffort_default_spec (.resolved 500 ()) (.resolved 500 ⟨none, none⟩)
    (.failed "timeout of 30000ms exceeded") (.failed "x") 500
    "timeout of 30000ms exceeded" () ⟨none, none⟩ none
  exact ⟨(h.2.1 (by omega)).1, (h.2.1 (by omega)).2.1, h.2.2.2.2⟩
